import Mathlib

/-!
Verification development for the volumes API layer
(`cinder/api/v2/volumes.py`): a shallow embedding of the view
translator, the option filter, the controller's create/update field
handling, and the structured-tree (XML) codec, together with theorems
about the behaviours the module is specified to have.

Python dictionaries whose keys are strings are embedded as association
lists `List (String × α)` with Python's insertion semantics
(`dictInsert`); optional / possibly-`None` values are embedded as
`Option`; Python truthiness of an optional string (`None` and `""` are
falsy) is `optStrTruthy`.
-/

namespace Volumes

/-- Python `d[k] = v` on a dict embedded as an association list:
overwrite the value in place when the key exists, append otherwise. -/
def dictInsert (d : List (String × String)) (k v : String) : List (String × String) :=
  if d.any (fun p => p.1 == k) then
    d.map (fun p => if p.1 == k then (k, v) else p)
  else
    d ++ [(k, v)]

/-- Python `dict(pairs)`: fold the pairs into an empty dict,
last write wins on duplicate keys. -/
def dictFromPairs (items : List (String × String)) : List (String × String) :=
  items.foldl (fun d p => dictInsert d p.1 p.2) []

/-- Truthiness of a possibly-absent / possibly-`None` Python string:
`None` (here `none`) and the empty string are falsy. -/
def optStrTruthy : Option String → Bool
  | some s => !(s == "")
  | none => false

/-!
Option Filter (`remove_invalid_options`, source lines 385-397) and the
controller's non-admin allow-list (`_get_volume_search_options`,
source lines 342-344).
-/

/-- Embeds `remove_invalid_options(context, search_options,
allowed_search_options)`: for an admin context it returns without
touching the dict; otherwise it deletes every option whose key is not
in the allowed collection.  The in-place mutation of the source is
embedded as returning the resulting dict. -/
def remove_invalid_options (is_admin : Bool) (search_options : List (String × String))
    (allowed_search_options : List String) : List (String × String) :=
  if is_admin then
    search_options
  else
    search_options.filter (fun p => allowed_search_options.contains p.1)

/-- Embeds `VolumeController._get_volume_search_options`: the tuple
`('display_name', 'status')`. -/
def get_volume_search_options : List String :=
  ["display_name", "status"]

/-!
Update field handling (`VolumeController.update`, source lines
357-372): the request's volume mapping is reduced to `update_dict`,
which is exactly what is handed to `volume_api.update`.
-/

/-- Embeds the tuple `valid_update_keys` of `VolumeController.update`. -/
def valid_update_keys : List String :=
  ["display_name", "display_description", "metadata"]

/-- Embeds the loop of `VolumeController.update` that builds
`update_dict`: for each key of `valid_update_keys`, if the key is in
the request's volume mapping, copy its value.  The result is the dict
passed to `volume_api.update`. -/
def update_build (volume : List (String × String)) : List (String × String) :=
  valid_update_keys.foldl
    (fun d key =>
      match volume.lookup key with
      | some v => dictInsert d key v
      | none => d)
    []

/-!
View Translator (`_translate_attachment_summary_view`,
`_translate_attachment_detail_view`, `_translate_volume_summary_view`,
source lines 39-116).
-/

/-- Embeds the embedded volume-type object `vol['volume_type']`: a dict
carrying at least a `name`.  `vol.get('volume_type')` being falsy
(absent, `None`, or an empty dict) is embedded as `none`. -/
structure VolType where
  name : String
  deriving Repr, DecidableEq

/-- Embeds a Python value sitting in a volume record's `metadata` slot:
either a dict of string keys/values (`mdict`) or a non-dict value
(`mstr`, standing for any value that fails `isinstance(·, dict)`, with
the string's truthiness standing for the value's truthiness). -/
inductive PyMeta where
  | mdict (m : List (String × String))
  | mstr (s : String)
  deriving Repr, DecidableEq

/-- Embeds a volume record as the translator reads it: every key the
translator accesses with `vol[...]` or `vol.get(...)`.  Keys read with
`vol.get` that may be absent or `None` are `Option`s;
`volume_metadata` items are the key/value pair records of the
persistence row. -/
structure Vol where
  id : String
  status : String
  size : Int
  availability_zone : String
  created_at : String
  attach_status : String
  instance_uuid : String
  mountpoint : Option String
  display_name : Option String
  display_description : Option String
  volume_type_id : Option String
  volume_type : Option VolType
  snapshot_id : Option String
  volume_metadata : Option (List (String × String))
  metadata : Option PyMeta
  deriving Repr

/-- Embeds the attachment view dict built by
`_translate_attachment_summary_view`. -/
structure AttachmentView where
  id : String
  volume_id : String
  server_id : String
  device : Option String
  deriving Repr, DecidableEq

/-- Embeds the volume view dict built by
`_translate_volume_summary_view`.  Keys that the source only sets
conditionally (`image_id`, the attachment's `device`) are `Option`s;
`metadata` is always set, so it is a bare dict. -/
structure VolumeView where
  id : String
  status : String
  size : Int
  availability_zone : String
  created_at : String
  attachments : List AttachmentView
  display_name : Option String
  display_description : Option String
  volume_type : String
  snapshot_id : Option String
  image_id : Option String
  metadata : List (String × String)
  deriving Repr

/-- Embeds `_translate_attachment_summary_view`: id and volume_id are
the volume's id, server_id is the instance uuid, and `device` is set
only when `vol.get('mountpoint')` is truthy. -/
def translate_attachment_summary_view (vol : Vol) : AttachmentView :=
  { id := vol.id
    volume_id := vol.id
    server_id := vol.instance_uuid
    device := if optStrTruthy vol.mountpoint then vol.mountpoint else none }

/-- Embeds `_translate_attachment_detail_view`, which returns the
summary view unchanged. -/
def translate_attachment_detail_view (vol : Vol) : AttachmentView :=
  translate_attachment_summary_view vol

/-- Embeds Python `str` applied to `vol['volume_type_id']`:
`str(None)` is the string `"None"`. -/
def strOfOptId : Option String → String
  | some s => s
  | none => "None"

/-- Embeds the `elif vol.get('metadata') and isinstance(vol.get('metadata'),
dict): ... else: d['metadata'] = {}` tail of the metadata resolution:
a truthy (non-empty) dict passes through verbatim, anything else
renders the empty dict. -/
def metadata_fallback : Option PyMeta → List (String × String)
  | some (PyMeta.mdict m) => if m.isEmpty then [] else m
  | _ => []

/-- Embeds `_translate_volume_summary_view` (source lines 76-116).
The `attachments` list gains one attachment detail view exactly when
`vol['attach_status'] == 'attached'`; `volume_type` is the embedded
object's name when `vol['volume_type_id']` and `vol.get('volume_type')`
are both truthy, else `str(vol['volume_type_id'])`; `image_id` is set
only when the `image_id` argument is truthy; `metadata` is the dict
built from the pair records when `vol.get('volume_metadata')` is
truthy, else the `metadata_fallback`. -/
def translate_volume_summary_view (vol : Vol) (image_id : Option String := none) :
    VolumeView :=
  { id := vol.id
    status := vol.status
    size := vol.size
    availability_zone := vol.availability_zone
    created_at := vol.created_at
    attachments :=
      if vol.attach_status == "attached" then
        [translate_attachment_detail_view vol]
      else
        []
    display_name := vol.display_name
    display_description := vol.display_description
    volume_type :=
      match vol.volume_type, optStrTruthy vol.volume_type_id with
      | some vt, true => vt.name
      | _, _ => strOfOptId vol.volume_type_id
    snapshot_id := vol.snapshot_id
    image_id := if optStrTruthy image_id then image_id else none
    metadata :=
      match vol.volume_metadata with
      | some items => if items.isEmpty then metadata_fallback vol.metadata
                      else dictFromPairs items
      | none => metadata_fallback vol.metadata }

/-- Embeds `_translate_volume_detail_view`, which returns the summary
view unchanged. -/
def translate_volume_detail_view (vol : Vol) (image_id : Option String := none) :
    VolumeView :=
  translate_volume_summary_view vol image_id

/-!
Create flow (`VolumeController.create`, source lines 278-340, and
`VolumeController._image_uuid_from_href`, lines 263-276).  External
collaborators — the volume-type lookup, the snapshot lookup of the
Volume Service, and the uuid-shape test — are parameters; a lookup
returning `none` stands for the collaborator raising.  The flow either
raises (`Except.error`) before `volume_api.create` is reached, or
reaches it with the arguments recorded in a `CreateCall`.
-/

/-- Embeds a snapshot record as `create` reads it:
`snapshot['volume_size']`. -/
structure Snapshot where
  volume_size : Int
  deriving Repr, DecidableEq

/-- Embeds the request's volume mapping as `create` reads it with
`volume.get(...)`: each key the source consults, absent embedded as
`none`. -/
structure CreateBody where
  volume_type : Option String
  metadata : Option (List (String × String))
  snapshot_id : Option String
  size : Option Int
  imageRef : Option String
  availability_zone : Option String
  display_name : Option String
  display_description : Option String
  deriving Repr

/-- The exceptions `create` can raise before the service call, plus
the propagation of a snapshot-lookup failure (which the source does
not catch). -/
inductive CreateErr where
  | httpNotFound (explanation : String)
  | badRequest (explanation : String)
  | snapshotServiceError
  deriving Repr, DecidableEq

/-- The arguments with which `create` finally calls
`volume_api.create(context, size, display_name, display_description,
**kwargs)`. -/
structure CreateCall where
  size : Option Int
  display_name : Option String
  display_description : Option String
  volume_type : Option VolType
  metadata : Option (List (String × String))
  snapshot : Option Snapshot
  image_id : Option String
  availability_zone : Option String
  deriving Repr

/-- Embeds source lines 290-297: if `volume.get('volume_type')` is
truthy, resolve it through `volume_types.get_volume_type_by_name`,
turning a `VolumeTypeNotFound` into `HTTPNotFound`. -/
def resolve_volume_type (get_volume_type_by_name : String → Option VolType)
    (req_volume_type : Option String) : Except CreateErr (Option VolType) :=
  if optStrTruthy req_volume_type then
    match get_volume_type_by_name (req_volume_type.getD "") with
    | some t => Except.ok (some t)
    | none => Except.error (CreateErr.httpNotFound "Volume type not found.")
  else
    Except.ok none

/-- Embeds source lines 301-306: if `snapshot_id is not None`, call
`volume_api.get_snapshot`; a failing lookup propagates uncaught. -/
def resolve_snapshot (get_snapshot : String → Option Snapshot)
    (snapshot_id : Option String) : Except CreateErr (Option Snapshot) :=
  match snapshot_id with
  | some sid =>
    match get_snapshot sid with
    | some snap => Except.ok (some snap)
    | none => Except.error CreateErr.snapshotServiceError
  | none => Except.ok none

/-- Embeds `_image_uuid_from_href`: take the trailing `/`-segment of
the href and require it to be uuid-like, else `HTTPBadRequest`. -/
def image_uuid_from_href (is_uuid_like : String → Bool) (image_href : String) :
    Except CreateErr String :=
  let image_uuid := (image_href.splitOn "/").getLastD ""
  if is_uuid_like image_uuid then
    Except.ok image_uuid
  else
    Except.error (CreateErr.badRequest "Invalid imageRef provided.")

/-- Embeds source lines 314-323: only when the `os-image-create`
extension is loaded is `imageRef` consulted; a truthy snapshot id
together with a truthy image href is `HTTPBadRequest`; a truthy image
href alone is resolved to an image uuid. -/
def resolve_image (ext_loaded : Bool) (is_uuid_like : String → Bool)
    (snapshot_id image_href : Option String) : Except CreateErr (Option String) :=
  if ext_loaded then
    if optStrTruthy snapshot_id && optStrTruthy image_href then
      Except.error (CreateErr.badRequest "Snapshot and image cannot be specified together.")
    else if optStrTruthy image_href then
      match image_uuid_from_href is_uuid_like (image_href.getD "") with
      | Except.ok u => Except.ok (some u)
      | Except.error e => Except.error e
    else
      Except.ok none
  else
    Except.ok none

/-- Embeds `VolumeController.create` from the point where the volume
mapping has been extracted from a valid body (line 286) down to the
`volume_api.create` call (line 327): volume-type resolution, metadata
pass-through, snapshot resolution, size defaulting from the snapshot,
the extension-gated image handling, and availability-zone
pass-through, in source order. -/
def create (ext_loaded : Bool) (get_volume_type_by_name : String → Option VolType)
    (get_snapshot : String → Option Snapshot) (is_uuid_like : String → Bool)
    (volume : CreateBody) : Except CreateErr CreateCall :=
  match resolve_volume_type get_volume_type_by_name volume.volume_type with
  | Except.error e => Except.error e
  | Except.ok vt =>
    match resolve_snapshot get_snapshot volume.snapshot_id with
    | Except.error e => Except.error e
    | Except.ok snap =>
      let size : Option Int :=
        match volume.size with
        | some n => some n
        | none =>
          match snap with
          | some s => some s.volume_size
          | none => none
      match resolve_image ext_loaded is_uuid_like volume.snapshot_id volume.imageRef with
      | Except.error e => Except.error e
      | Except.ok image_id =>
        Except.ok
          { size := size
            display_name := volume.display_name
            display_description := volume.display_description
            volume_type := vt
            metadata := volume.metadata
            snapshot := snap
            image_id := image_id
            availability_zone := volume.availability_zone }

/-!
Structured-tree (XML) codec: the create-request decoder
(`CommonDeserializer._extract_volume`, source lines 173-188, and
`CreateDeserializer.default`, lines 198-202) and, modelled from the
spec, the collaborators the decoder relies on — the stdlib tree
parser, the shared metadata-decoding helpers of the wsgi layer, the
template-driven encoder, and the dispatch layer's error mapping.
-/

/-- A structured tree: an element with a name, attributes and
children, or a text node. -/
inductive Xml where
  | elem (name : String) (attrs : List (String × String)) (children : List Xml)
  | text (s : String)
  deriving Repr

/-- Modelled from the spec: `find_first_child_named` of the wsgi
deserializer base class (not under src/) — the first child element
carrying the given name, skipping text nodes. -/
def find_first_child_named (node : Xml) (name : String) : Option Xml :=
  match node with
  | Xml.elem _ _ children =>
    children.find? (fun c =>
      match c with
      | Xml.elem n _ _ => n == name
      | Xml.text _ => false)
  | Xml.text _ => none

/-- Modelled from the spec: `find_children_named` of the wsgi
deserializer base class (not under src/) — all child elements carrying
the given name. -/
def find_children_named (node : Xml) (name : String) : List Xml :=
  match node with
  | Xml.elem _ _ children =>
    children.filter (fun c =>
      match c with
      | Xml.elem n _ _ => n == name
      | Xml.text _ => false)
  | Xml.text _ => []

/-- The minidom `getAttribute` semantics: the attribute's value, or
the empty string when the attribute is absent (or the node is a text
node). -/
def getAttribute (node : Xml) (attr : String) : String :=
  match node with
  | Xml.elem _ attrs _ => (attrs.lookup attr).getD ""
  | Xml.text _ => ""

/-- Modelled from the spec: `extract_text` of the wsgi metadata
deserializer (not under src/) — the value of the node's single text
child, else the empty string. -/
def extract_text (node : Xml) : String :=
  match node with
  | Xml.elem _ _ [Xml.text s] => s
  | _ => ""

/-- Modelled from the spec: the shared metadata-decoding convention
(`MetadataXMLDeserializer.extract_metadata`, not under src/) — each
`meta` child element contributes its `key` attribute mapped to its
text content. -/
def extract_metadata (metadata_node : Xml) : List (String × String) :=
  (find_children_named metadata_node "meta").foldl
    (fun d m => dictInsert d (getAttribute m "key") (extract_text m)) []

/-- A value of the decoded volume mapping: the string value of an
attribute, or the decoded metadata dict. -/
inductive BodyVal where
  | vstr (s : String)
  | vdict (m : List (String × String))
  deriving Repr, DecidableEq

/-- Embeds the fixed attribute allow-list of
`CommonDeserializer._extract_volume`. -/
def extract_volume_attrs : List String :=
  ["display_name", "display_description", "size", "volume_type", "availability_zone"]

/-- Failures of the decoding path: the tree parser raising on
malformed input (uncaught in `CreateDeserializer.default`), or the
attribute access crashing because no `volume` node was found
(`volume_node` is `None`). -/
inductive DeserErr where
  | parseError
  | noVolumeNode
  deriving Repr, DecidableEq

/-- Embeds `CommonDeserializer._extract_volume`: locate the first
`volume` child of the parsed document (its absence makes the
subsequent attribute access raise, embedded as `noVolumeNode`), copy
each allow-listed attribute whose value is truthy, then decode an
optional nested `metadata` node through the shared convention. -/
def extract_volume (node : Xml) : Except DeserErr (List (String × BodyVal)) :=
  match find_first_child_named node "volume" with
  | none => Except.error DeserErr.noVolumeNode
  | some volume_node =>
    let volume := extract_volume_attrs.foldl
      (fun acc attr =>
        if getAttribute volume_node attr == "" then acc
        else acc ++ [(attr, BodyVal.vstr (getAttribute volume_node attr))])
      []
    let volume :=
      match find_first_child_named volume_node "metadata" with
      | some metadata_node => volume ++ [("metadata", BodyVal.vdict (extract_metadata metadata_node))]
      | none => volume
    Except.ok volume

/-- Embeds `CreateDeserializer.default`: parse the request string
(`minidom.parseString`, modelled as the `parse` parameter, `none`
standing for the parser raising on malformed input — the source does
not catch it) and extract the volume mapping; on success the result is
wrapped as `{'body': {'volume': volume}}`, embedded as the bare
mapping. -/
def CreateDeserializer_default (parse : String → Option Xml) (s : String) :
    Except DeserErr (List (String × BodyVal)) :=
  match parse s with
  | none => Except.error DeserErr.parseError
  | some dom => extract_volume dom

/-- Outcome of deserializing a request body at the wire level. -/
inductive DeserOutcome where
  | ok (volume : List (String × BodyVal))
  | clientError (explanation : String)
  | crash (e : DeserErr)
  deriving Repr, DecidableEq

/-- Modelled from the spec: the HTTP dispatch layer that invokes the
deserializer is not under src/; per the spec's error taxonomy,
malformed structured-tree input is a ClientInputError re-expressed as
an HTTP 400-class response, while any other uncaught exception from
the decoder would be a crash. -/
def dispatch_deserialize (parse : String → Option Xml) (s : String) : DeserOutcome :=
  match CreateDeserializer_default parse s with
  | Except.ok volume => DeserOutcome.ok volume
  | Except.error DeserErr.parseError => DeserOutcome.clientError "Malformed request body"
  | Except.error e => DeserOutcome.crash e

/-- The recognized scalar attributes of a Volume View that the
structured-tree encoder emits and the create-request decoder reads,
each optional (a view produced for a create round-trip need not supply
all of them); values are carried in their wire (string) form. -/
structure ViewAttrs where
  display_name : Option String
  display_description : Option String
  size : Option String
  volume_type : Option String
  availability_zone : Option String
  deriving Repr

/-- An attribute entry when the value is supplied, nothing when it is
absent. -/
def optAttr (k : String) : Option String → List (String × String)
  | some v => [(k, v)]
  | none => []

/-- Modelled from the spec: the template-driven structured-tree
encoder (`make_volume` hands the attribute names to `xmlutil`, not
under src/) — each supplied scalar field of the view becomes an
attribute of the `volume` element, an unsupplied field is omitted; the
document node wraps the root element as the parsed tree does. -/
def encode_volume_view (v : ViewAttrs) : Xml :=
  Xml.elem "#document" []
    [Xml.elem "volume"
      (optAttr "display_name" v.display_name ++
       optAttr "display_description" v.display_description ++
       optAttr "size" v.size ++
       optAttr "volume_type" v.volume_type ++
       optAttr "availability_zone" v.availability_zone)
      []]

/-- A decoded-mapping entry when the attribute is supplied, nothing
when it is absent: the shape `_extract_volume` produces for one
allow-listed attribute. -/
def optBodyEntry (k : String) : Option String → List (String × BodyVal)
  | some s => [(k, BodyVal.vstr s)]
  | none => []

/-!
Concrete records used to instantiate the theorems below.
-/

/-- A minimal volume record: detached, no metadata, no volume type. -/
def sampleVol : Vol :=
  { id := "v1"
    status := "available"
    size := 1
    availability_zone := "az"
    created_at := "t0"
    attach_status := "detached"
    instance_uuid := "inst-1"
    mountpoint := none
    display_name := none
    display_description := none
    volume_type_id := none
    volume_type := none
    snapshot_id := none
    volume_metadata := none
    metadata := none }

/-- The sample record, attached with a mount point. -/
def attachedVol : Vol :=
  { sampleVol with attach_status := "attached", mountpoint := some "/dev/vdb" }

/-- The sample record with pair-list metadata `[{key:"a",value:"1"}]`. -/
def pairVol : Vol :=
  { sampleVol with volume_metadata := some [("a", "1")] }

/-- The sample record with direct-mapping metadata `{"a":"1"}`. -/
def mapVol : Vol :=
  { sampleVol with metadata := some (PyMeta.mdict [("a", "1")]) }

/-- The sample record with an embedded type object named `"gold"`. -/
def goldVol : Vol :=
  { sampleVol with volume_type_id := some "type-1", volume_type := some ⟨"gold"⟩ }

/-- The sample record with only a bare type reference `"42"`. -/
def bareTypeVol : Vol :=
  { sampleVol with volume_type_id := some "42" }

/-- The sample record with an empty pair list and a direct mapping. -/
def emptyPairMapVol : Vol :=
  { sampleVol with volume_metadata := some [], metadata := some (PyMeta.mdict [("b", "2")]) }

/-- The sample record with an empty pair list and nothing else. -/
def emptyPairOnlyVol : Vol :=
  { sampleVol with volume_metadata := some [] }

/-- The sample record with a non-mapping value in the `metadata` slot. -/
def strMetaVol : Vol :=
  { sampleVol with metadata := some (PyMeta.mstr "x") }

/-- A create body supplying both a snapshot id and an image href. -/
def conflictBody : CreateBody :=
  { volume_type := none, metadata := none, snapshot_id := some "s1", size := none
    imageRef := some "image-ref", availability_zone := none, display_name := none
    display_description := none }

/-- A create body supplying a snapshot id and no size. -/
def snapBody : CreateBody :=
  { volume_type := none, metadata := none, snapshot_id := some "s1", size := none
    imageRef := none, availability_zone := none, display_name := none
    display_description := none }

/-- A create body supplying only a size. -/
def sizeBody : CreateBody :=
  { volume_type := none, metadata := none, snapshot_id := none, size := some 5
    imageRef := none, availability_zone := none, display_name := none
    display_description := none }

/-- A view supplying the empty string as its display name. -/
def emptyNameView : ViewAttrs :=
  { display_name := some "", display_description := none, size := none
    volume_type := none, availability_zone := none }

/-- A view supplying a display name and a size, nothing else. -/
def partialView : ViewAttrs :=
  { display_name := some "n", display_description := none, size := some "5"
    volume_type := none, availability_zone := none }

/-!
Theorems.
-/

/-- C5: for a privileged (admin) context the option filter passes every
key/value pair through untouched; for a non-privileged context exactly
the pairs whose key is in the allowed collection remain, values
unchanged; and the concrete options `{display_name:"x", foo:"y"}`
filtered against the default allowed set leave only
`{display_name:"x"}`. -/
theorem remove_invalid_options_correct (adm : Bool) (opts : List (String × String))
    (allowed : List String) :
    (adm = true → remove_invalid_options adm opts allowed = opts) ∧
    (adm = false →
      ∀ p : String × String,
        p ∈ remove_invalid_options adm opts allowed ↔ p ∈ opts ∧ p.1 ∈ allowed) ∧
    remove_invalid_options false [("display_name", "x"), ("foo", "y")]
      get_volume_search_options = [("display_name", "x")] := by
  refine ⟨fun h => by simp [remove_invalid_options, h], fun h p => ?_, rfl⟩
  simp [remove_invalid_options, h, List.mem_filter]

/-- C5 witness: the option filter at the concrete inputs of the claim. -/
theorem remove_invalid_options_correct_witness :
    remove_invalid_options true [("display_name", "x"), ("foo", "y")]
        get_volume_search_options = [("display_name", "x"), ("foo", "y")] ∧
    (("display_name", "x") ∈
        remove_invalid_options false [("display_name", "x"), ("foo", "y")]
          get_volume_search_options ↔
      ("display_name", "x") ∈ [("display_name", "x"), ("foo", "y")] ∧
        "display_name" ∈ get_volume_search_options) :=
  ⟨(remove_invalid_options_correct true [("display_name", "x"), ("foo", "y")]
      get_volume_search_options).1 rfl,
   (remove_invalid_options_correct false [("display_name", "x"), ("foo", "y")]
      get_volume_search_options).2.1 rfl ("display_name", "x")⟩

/-- C6: every pair of the dict handed to the service update call has
its key among the three valid update keys and carries the value
submitted in the request's volume mapping; every valid key present in
the request reaches the dict; and the concrete request
`{display_name:"new", bogus_field:"z"}` yields exactly
`{display_name:"new"}`. -/
theorem update_build_only_valid_keys (volume : List (String × String)) :
    (∀ k v, (k, v) ∈ update_build volume →
      k ∈ valid_update_keys ∧ volume.lookup k = some v) ∧
    (∀ k, k ∈ valid_update_keys → ∀ v, volume.lookup k = some v →
      (k, v) ∈ update_build volume) ∧
    update_build [("display_name", "new"), ("bogus_field", "z")] =
      [("display_name", "new")] := by
  have key : update_build volume =
      valid_update_keys.filterMap (fun k => (volume.lookup k).map (fun v => (k, v))) := by
    rcases h1 : volume.lookup "display_name" with _ | v1 <;>
      rcases h2 : volume.lookup "display_description" with _ | v2 <;>
        rcases h3 : volume.lookup "metadata" with _ | v3 <;>
          simp [update_build, valid_update_keys, dictInsert, h1, h2, h3]
  refine ⟨?_, ?_, rfl⟩
  · intro k v hm
    rw [key] at hm
    simp only [List.mem_filterMap, Option.map_eq_some'] at hm
    obtain ⟨k', hk', v', hv', heq⟩ := hm
    obtain ⟨rfl, rfl⟩ := Prod.mk.injEq .. ▸ heq
    exact ⟨hk', hv'⟩
  · intro k hk v hv
    rw [key]
    simp only [List.mem_filterMap]
    exact ⟨k, hk, by simp [hv]⟩

/-- C6 witness: the retained pair of the concrete update request of
the claim has a valid key and its submitted value. -/
theorem update_build_only_valid_keys_witness :
    "display_name" ∈ valid_update_keys ∧
    List.lookup "display_name" [("display_name", "new"), ("bogus_field", "z")] =
      some "new" :=
  (update_build_only_valid_keys [("display_name", "new"), ("bogus_field", "z")]).1
    "display_name" "new" (by decide)

/-- C8: a record whose attach status differs from `"attached"` renders
an empty attachments list; an attached record renders exactly the one
attachment detail view, whose id is the volume's id, whose `device`
field is present exactly when the record carries a mount point (a
Python-falsy empty-string mount point counts, like `None`, as no mount
point), carries the record's mount point when one is present, and is
never defaulted to the empty string. -/
theorem attachments_view_correct (vol : Vol) (image_id : Option String) :
    (vol.attach_status ≠ "attached" →
      (translate_volume_summary_view vol image_id).attachments = []) ∧
    (vol.attach_status = "attached" →
      (translate_volume_summary_view vol image_id).attachments =
        [translate_attachment_detail_view vol] ∧
      (translate_attachment_detail_view vol).id = vol.id ∧
      (translate_attachment_detail_view vol).device.isSome = optStrTruthy vol.mountpoint ∧
      (optStrTruthy vol.mountpoint = true →
        (translate_attachment_detail_view vol).device = vol.mountpoint) ∧
      (translate_attachment_detail_view vol).device ≠ some "") := by
  constructor
  · intro h
    simp [translate_volume_summary_view, h]
  · intro h
    refine ⟨by simp [translate_volume_summary_view, h], rfl, ?_, ?_, ?_⟩
    · rcases hm : vol.mountpoint with _ | s
      · simp [translate_attachment_detail_view, translate_attachment_summary_view,
          optStrTruthy, hm]
      · by_cases hs : s = "" <;>
          simp [translate_attachment_detail_view, translate_attachment_summary_view,
            optStrTruthy, hm, hs]
    · intro ht
      simp [translate_attachment_detail_view, translate_attachment_summary_view, ht]
    · rcases hm : vol.mountpoint with _ | s <;>
        simp [translate_attachment_detail_view, translate_attachment_summary_view,
          optStrTruthy, hm]

/-- C8 witness: the detached sample record renders no attachment; the
attached sample record renders its one attachment view carrying the
record's mount point. -/
theorem attachments_view_correct_witness :
    (translate_volume_summary_view sampleVol none).attachments = [] ∧
    (translate_volume_summary_view attachedVol none).attachments =
      [translate_attachment_detail_view attachedVol] ∧
    (translate_attachment_detail_view attachedVol).device = attachedVol.mountpoint :=
  ⟨(attachments_view_correct sampleVol none).1 (by decide),
   ((attachments_view_correct attachedVol none).2 rfl).1,
   ((attachments_view_correct attachedVol none).2 rfl).2.2.2.1 (by decide)⟩

/-- C2: when the record's type reference is truthy and an embedded
type object is present, the rendered `volume_type` is the object's
name; otherwise it is the stringified bare reference, which for an
absent/`None` reference is the string `"None"`. -/
theorem volume_type_resolution (vol : Vol) (image_id : Option String) :
    ((optStrTruthy vol.volume_type_id = true ∧ vol.volume_type.isSome) →
      ∀ vt, vol.volume_type = some vt →
        (translate_volume_summary_view vol image_id).volume_type = vt.name) ∧
    ((optStrTruthy vol.volume_type_id = false ∨ vol.volume_type = none) →
      (translate_volume_summary_view vol image_id).volume_type =
        strOfOptId vol.volume_type_id) ∧
    (vol.volume_type_id = none →
      (translate_volume_summary_view vol image_id).volume_type = "None") := by
  refine ⟨?_, ?_, ?_⟩
  · rintro ⟨ht, -⟩ vt hvt
    simp [translate_volume_summary_view, hvt, ht]
  · rintro (ht | hvt)
    · rcases hv : vol.volume_type with _ | vt <;>
        simp [translate_volume_summary_view, hv, ht]
    · simp [translate_volume_summary_view, hvt]
  · intro h
    rcases hv : vol.volume_type with _ | vt <;>
      simp [translate_volume_summary_view, hv, h, optStrTruthy, strOfOptId]

/-- C2 witness: the embedded type object named `"gold"` renders as
`"gold"`; the bare reference `"42"` renders as the string `"42"`; an
absent reference renders as `"None"`. -/
theorem volume_type_resolution_witness :
    (translate_volume_summary_view goldVol none).volume_type = "gold" ∧
    (translate_volume_summary_view bareTypeVol none).volume_type = "42" ∧
    (translate_volume_summary_view sampleVol none).volume_type = "None" :=
  ⟨(volume_type_resolution goldVol none).1 ⟨by decide, by decide⟩ ⟨"gold"⟩ rfl,
   (volume_type_resolution bareTypeVol none).2.1 (Or.inr rfl),
   (volume_type_resolution sampleVol none).2.2 rfl⟩

/-- C1: a record carrying (non-empty) pair-list metadata renders the
dict built from the pairs; failing that, a record carrying a (truthy)
direct-mapping dict renders that dict verbatim; a record carrying
neither renders the empty dict. -/
theorem metadata_resolution (vol : Vol) (image_id : Option String) :
    (∀ items, vol.volume_metadata = some items → items ≠ [] →
      (translate_volume_summary_view vol image_id).metadata = dictFromPairs items) ∧
    ((vol.volume_metadata = none ∨ vol.volume_metadata = some []) →
      ∀ m, vol.metadata = some (PyMeta.mdict m) → m ≠ [] →
        (translate_volume_summary_view vol image_id).metadata = m) ∧
    ((vol.volume_metadata = none ∨ vol.volume_metadata = some []) →
      (∀ m, vol.metadata = some (PyMeta.mdict m) → m = []) →
      (translate_volume_summary_view vol image_id).metadata = []) := by
  refine ⟨?_, ?_, ?_⟩
  · intro items hvm hne
    simp [translate_volume_summary_view, hvm, hne]
  · rintro (hvm | hvm) m hm hne <;>
      simp [translate_volume_summary_view, hvm, metadata_fallback, hm, hne]
  · rintro (hvm | hvm) hfalsy <;>
    · rcases hm : vol.metadata with _ | md
      · simp [translate_volume_summary_view, hvm, metadata_fallback, hm]
      · rcases md with m | s
        · have : m = [] := hfalsy m hm
          simp [translate_volume_summary_view, hvm, metadata_fallback, hm, this]
        · simp [translate_volume_summary_view, hvm, metadata_fallback, hm]

/-- C1 witness: pair-list metadata `[{key:"a",value:"1"}]` and direct
mapping `{"a":"1"}` render the identical dict `{"a":"1"}`; a record
with neither renders `{}`. -/
theorem metadata_resolution_witness :
    (translate_volume_summary_view pairVol none).metadata = [("a", "1")] ∧
    (translate_volume_summary_view mapVol none).metadata = [("a", "1")] ∧
    (translate_volume_summary_view sampleVol none).metadata = [] :=
  ⟨(metadata_resolution pairVol none).1 [("a", "1")] rfl (by decide),
   (metadata_resolution mapVol none).2.1 (Or.inl rfl) [("a", "1")] rfl (by decide),
   (metadata_resolution sampleVol none).2.2 (Or.inl rfl) (fun _ hm => nomatch hm)⟩

/-- C10: the metadata dispatch is truthiness-based — a present but
empty pair list does not take the pair-list branch: with a non-empty
direct-mapping dict alongside, that dict is rendered; with no truthy
dict, the empty dict is rendered; and a non-mapping value in the
`metadata` slot is ignored, rendering the empty dict. -/
theorem metadata_dispatch_truthiness (vol : Vol) (image_id : Option String) :
    (vol.volume_metadata = some [] →
      ∀ m, vol.metadata = some (PyMeta.mdict m) → m ≠ [] →
        (translate_volume_summary_view vol image_id).metadata = m) ∧
    (vol.volume_metadata = some [] →
      (∀ m, vol.metadata = some (PyMeta.mdict m) → m = []) →
      (translate_volume_summary_view vol image_id).metadata = []) ∧
    ((vol.volume_metadata = none ∨ vol.volume_metadata = some []) →
      ∀ s, vol.metadata = some (PyMeta.mstr s) →
        (translate_volume_summary_view vol image_id).metadata = []) := by
  refine ⟨?_, ?_, ?_⟩
  · intro hvm m hm hne
    simp [translate_volume_summary_view, hvm, metadata_fallback, hm, hne]
  · intro hvm hfalsy
    rcases hm : vol.metadata with _ | md
    · simp [translate_volume_summary_view, hvm, metadata_fallback, hm]
    · rcases md with m | s
      · have : m = [] := hfalsy m hm
        simp [translate_volume_summary_view, hvm, metadata_fallback, hm, this]
      · simp [translate_volume_summary_view, hvm, metadata_fallback, hm]
  · rintro (hvm | hvm) s hm <;>
      simp [translate_volume_summary_view, hvm, metadata_fallback, hm]

/-- C10 witness: an empty pair list with the direct mapping
`{"b":"2"}` renders `{"b":"2"}`; an empty pair list alone renders
`{}`; a non-mapping `metadata` value renders `{}`. -/
theorem metadata_dispatch_truthiness_witness :
    (translate_volume_summary_view emptyPairMapVol none).metadata = [("b", "2")] ∧
    (translate_volume_summary_view emptyPairOnlyVol none).metadata = [] ∧
    (translate_volume_summary_view strMetaVol none).metadata = [] :=
  ⟨(metadata_dispatch_truthiness emptyPairMapVol none).1 rfl [("b", "2")] rfl (by decide),
   (metadata_dispatch_truthiness emptyPairOnlyVol none).2.1 rfl (fun _ hm => nomatch hm),
   (metadata_dispatch_truthiness strMetaVol none).2.2 (Or.inl rfl) "x" rfl⟩

/-- C4: a create request whose volume mapping supplies a truthy
snapshot id and a truthy image href, with the image-create extension
loaded, raises `HTTPBadRequest` ("Snapshot and image cannot be
specified together.") — provided the earlier steps did not already
raise (the volume-type resolution and the snapshot lookup succeed) —
and the `volume_api.create` call is never reached. -/
theorem create_snapshot_image_conflict (get_volume_type_by_name : String → Option VolType)
    (get_snapshot : String → Option Snapshot) (is_uuid_like : String → Bool)
    (volume : CreateBody)
    (hsid : optStrTruthy volume.snapshot_id = true)
    (himg : optStrTruthy volume.imageRef = true)
    (hvt : ∃ vt, resolve_volume_type get_volume_type_by_name volume.volume_type =
      Except.ok vt)
    (hsnap : ∃ s, resolve_snapshot get_snapshot volume.snapshot_id = Except.ok s) :
    create true get_volume_type_by_name get_snapshot is_uuid_like volume =
      Except.error
        (CreateErr.badRequest "Snapshot and image cannot be specified together.") ∧
    ∀ call, create true get_volume_type_by_name get_snapshot is_uuid_like volume ≠
      Except.ok call := by
  obtain ⟨vt, hvt⟩ := hvt
  obtain ⟨s, hsnap⟩ := hsnap
  have h : create true get_volume_type_by_name get_snapshot is_uuid_like volume =
      Except.error
        (CreateErr.badRequest "Snapshot and image cannot be specified together.") := by
    simp [create, hvt, hsnap, resolve_image, hsid, himg]
  exact ⟨h, fun call => by simp [h]⟩

/-- C4 witness: the conflict at a concrete body supplying snapshot id
`"s1"` and image href `"image-ref"` with the extension loaded. -/
theorem create_snapshot_image_conflict_witness :
    create true (fun _ => none) (fun _ => some ⟨10⟩) (fun _ => true) conflictBody =
      Except.error
        (CreateErr.badRequest "Snapshot and image cannot be specified together.") :=
  (create_snapshot_image_conflict (fun _ => none) (fun _ => some ⟨10⟩) (fun _ => true)
    conflictBody (by decide) (by decide) ⟨none, rfl⟩ ⟨some ⟨10⟩, rfl⟩).1

/-- C7: with no image href supplied and the volume-type resolution
succeeding, a create body without a size whose snapshot id resolves to
a snapshot reaches `volume_api.create` with the snapshot's recorded
volume size; a body with a size and no snapshot reaches it with that
size unchanged. -/
theorem create_size_resolution (ext_loaded : Bool)
    (get_volume_type_by_name : String → Option VolType)
    (get_snapshot : String → Option Snapshot) (is_uuid_like : String → Bool)
    (volume : CreateBody) (vt : Option VolType)
    (himg : volume.imageRef = none)
    (hvt : resolve_volume_type get_volume_type_by_name volume.volume_type =
      Except.ok vt) :
    (∀ sid snap, volume.size = none → volume.snapshot_id = some sid →
      get_snapshot sid = some snap →
      create ext_loaded get_volume_type_by_name get_snapshot is_uuid_like volume =
        Except.ok
          { size := some snap.volume_size
            display_name := volume.display_name
            display_description := volume.display_description
            volume_type := vt
            metadata := volume.metadata
            snapshot := some snap
            image_id := none
            availability_zone := volume.availability_zone }) ∧
    (∀ n, volume.size = some n → volume.snapshot_id = none →
      create ext_loaded get_volume_type_by_name get_snapshot is_uuid_like volume =
        Except.ok
          { size := some n
            display_name := volume.display_name
            display_description := volume.display_description
            volume_type := vt
            metadata := volume.metadata
            snapshot := none
            image_id := none
            availability_zone := volume.availability_zone }) := by
  have himg' : ∀ sid, resolve_image ext_loaded is_uuid_like sid volume.imageRef =
      Except.ok none := by
    intro sid
    cases ext_loaded <;> simp [resolve_image, himg, optStrTruthy]
  constructor
  · intro sid snap hsize hsid hgs
    simp [create, hvt, resolve_snapshot, hsid, hgs, himg', hsize]
  · intro n hsize hsid
    simp [create, hvt, resolve_snapshot, hsid, himg', hsize]

/-- C7 witness: the body `{snapshot_id:"s1"}` with snapshot `"s1"` of
recorded size `10` reaches the service with size `10`; the body
`{size:5}` reaches it with size `5`. -/
theorem create_size_resolution_witness :
    create false (fun _ => none) (fun _ => some ⟨10⟩) (fun _ => true) snapBody =
      Except.ok
        { size := some 10, display_name := none, display_description := none
          volume_type := none, metadata := none, snapshot := some ⟨10⟩
          image_id := none, availability_zone := none } ∧
    create false (fun _ => none) (fun _ => some ⟨10⟩) (fun _ => true) sizeBody =
      Except.ok
        { size := some 5, display_name := none, display_description := none
          volume_type := none, metadata := none, snapshot := none
          image_id := none, availability_zone := none } :=
  ⟨(create_size_resolution false (fun _ => none) (fun _ => some ⟨10⟩) (fun _ => true)
      snapBody none rfl rfl).1 "s1" ⟨10⟩ rfl rfl rfl,
   (create_size_resolution false (fun _ => none) (fun _ => some ⟨10⟩) (fun _ => true)
      sizeBody none rfl rfl).2 5 rfl rfl⟩

/-- C3: an input string on which the structured-tree parser fails is
answered by the deserialization path with the client-input error
"Malformed request body", never with a crash (an uncaught
exception). -/
theorem malformed_tree_client_error (parse : String → Option Xml) (s : String)
    (h : parse s = none) :
    dispatch_deserialize parse s = DeserOutcome.clientError "Malformed request body" ∧
    ∀ e, dispatch_deserialize parse s ≠ DeserOutcome.crash e := by
  have hd : dispatch_deserialize parse s =
      DeserOutcome.clientError "Malformed request body" := by
    simp [dispatch_deserialize, CreateDeserializer_default, h]
  exact ⟨hd, fun e => by simp [hd]⟩

/-- C3 witness: a concrete unparsable string under a parser that
rejects it. -/
theorem malformed_tree_client_error_witness :
    dispatch_deserialize (fun _ => none) "not a tree" =
      DeserOutcome.clientError "Malformed request body" :=
  (malformed_tree_client_error (fun _ => none) "not a tree" rfl).1

/-- C9 counterexample: a view supplying the empty string as its
display name round-trips to a decoded mapping with no `display_name`
key at all — the decoder's truthiness test on `getAttribute` drops a
present empty-valued attribute — so the supplied value is not
reproduced. -/
theorem roundtrip_create_attrs_counterexample :
    emptyNameView.display_name = some "" ∧
    extract_volume (encode_volume_view emptyNameView) = Except.ok [] ∧
    List.lookup "display_name" ([] : List (String × BodyVal)) ≠
      some (BodyVal.vstr "") :=
  ⟨rfl, rfl, by simp⟩

/-- C9 (amended): for a view none of whose supplied recognized
attributes is the empty string, encoding to the structured tree and
decoding with the create-request decoder reproduces exactly the
supplied attributes with their values, every unsupplied attribute
absent from the decoded mapping. -/
theorem roundtrip_create_attrs (v : ViewAttrs)
    (h1 : v.display_name ≠ some "") (h2 : v.display_description ≠ some "")
    (h3 : v.size ≠ some "") (h4 : v.volume_type ≠ some "")
    (h5 : v.availability_zone ≠ some "") :
    extract_volume (encode_volume_view v) =
      Except.ok
        (optBodyEntry "display_name" v.display_name ++
         optBodyEntry "display_description" v.display_description ++
         optBodyEntry "size" v.size ++
         optBodyEntry "volume_type" v.volume_type ++
         optBodyEntry "availability_zone" v.availability_zone) := by
  obtain ⟨dn, dd, sz, vt, az⟩ := v
  rcases dn with _ | s1 <;> rcases dd with _ | s2 <;> rcases sz with _ | s3 <;>
    rcases vt with _ | s4 <;> rcases az with _ | s5 <;>
    simp_all [extract_volume, encode_volume_view, extract_volume_attrs,
      find_first_child_named, getAttribute, optAttr, optBodyEntry, List.lookup]

/-- C9 witness: the view supplying display name `"n"` and size `"5"`
round-trips to exactly those two entries. -/
theorem roundtrip_create_attrs_witness :
    extract_volume (encode_volume_view partialView) =
      Except.ok [("display_name", BodyVal.vstr "n"), ("size", BodyVal.vstr "5")] :=
  roundtrip_create_attrs partialView (by decide) (by decide) (by decide) (by decide)
    (by decide)

end Volumes
